import Mathlib

/-!
Shallow embedding of the CivicMind API gateway
(src/independent-services/civicmind-api-gateway/main.py).

The gateway is a FastAPI service: a static service registry
(`CIVIC_SERVICES`), a keyword classifier (`classify_issue`), a health
cache refreshed by `update_service_health_cache`, a liveness endpoint
(`health_check`), and the analyze endpoint (`analyze_civic_issue`) that
validates, classifies, consults the cache, and forwards the request.

Network I/O is modelled by an oracle argument (`net`): for each URL it
yields either an HTTP response (status code and opaque JSON body) or a
raised exception message.  Wall-clock readings (uptime, the rounded
processing time, timestamps) are passed in as parameters.  The analyze
function additionally returns the list of outbound POST calls it made
(URL and body), so that "no network call is attempted" is expressible.
-/

/-- One entry of the service registry (the dicts in `CIVIC_SERVICES`). -/
structure ServiceConfig where
  url : String
  name : String
  version : String
  health_endpoint : String
  analyze_endpoint : String
deriving DecidableEq

def SERVICE_NAME : String := "api-gateway"

def SERVICE_VERSION : String := "1.0.0"

/-- The static service registry `CIVIC_SERVICES` of main.py, as an
association list in the dict's insertion order. -/
def CIVIC_SERVICES : List (String × ServiceConfig) :=
  [ ("parking",
     { url := "http://localhost:9300", name := "parking-service", version := "1.0.0",
       health_endpoint := "/health", analyze_endpoint := "/analyze" }),
    ("permits",
     { url := "http://localhost:9301", name := "permits-service", version := "1.0.0",
       health_endpoint := "/health", analyze_endpoint := "/analyze" }),
    ("noise",
     { url := "http://localhost:9302", name := "noise-service", version := "1.0.0",
       health_endpoint := "/health", analyze_endpoint := "/analyze" }),
    ("infrastructure",
     { url := "http://localhost:9303", name := "infrastructure-service", version := "1.0.0",
       health_endpoint := "/health", analyze_endpoint := "/analyze" }),
    ("business",
     { url := "http://localhost:9304", name := "business-service", version := "1.0.0",
       health_endpoint := "/health", analyze_endpoint := "/analyze" }),
    ("religious_events",
     { url := "http://localhost:9305", name := "religious-events-service", version := "1.0.0",
       health_endpoint := "/health", analyze_endpoint := "/analyze" }),
    ("neighbor_dispute",
     { url := "http://localhost:9306", name := "neighbor-dispute-service", version := "1.0.0",
       health_endpoint := "/health", analyze_endpoint := "/analyze" }),
    ("environmental",
     { url := "http://localhost:9307", name := "environmental-service", version := "1.0.0",
       health_endpoint := "/health", analyze_endpoint := "/analyze" }) ]

/-- Python `description.lower()` restricted to the ASCII range (all
keywords and tested inputs are ASCII, where `Char.toLower` agrees with
Python `str.lower`). -/
def strLower (s : String) : String :=
  String.mk (s.data.map Char.toLower)

/-- Whether `pat` stands at the head of `s` (helper for the Python
substring test `word in description_lower`). -/
def startsWithL : List Char → List Char → Bool
  | [], _ => true
  | _ :: _, [] => false
  | p :: ps, c :: cs => p == c && startsWithL ps cs

/-- Whether `pat` occurs as a contiguous run of `s`: Python's
`pat in s` on strings. -/
def occursIn (pat : List Char) : List Char → Bool
  | [] => startsWithL pat []
  | c :: cs => startsWithL pat (c :: cs) || occursIn pat cs

/-- Python `word in s` for strings. -/
def wordIn (w s : String) : Bool :=
  occursIn w.data s.data

/-- Python `any(word in s for word in words)`. -/
def containsAnyWord (s : String) (words : List String) : Bool :=
  words.any (fun w => wordIn w s)

def parkingKeywords : List String :=
  ["park", "driveway", "block", "car", "vehicle", "permit", "meter"]

def noiseKeywords : List String :=
  ["noise", "loud", "music", "bark", "construction", "sound"]

def permitsKeywords : List String :=
  ["permit", "license", "build", "construction", "renovation", "addition"]

def infrastructureKeywords : List String :=
  ["road", "street", "pothole", "light", "water", "sewer", "utility"]

def businessKeywords : List String :=
  ["business", "commercial", "shop", "store", "restaurant"]

def religiousKeywords : List String :=
  ["religious", "temple", "church", "mosque", "festival", "ceremony", "cultural"]

def neighborKeywords : List String :=
  ["neighbor", "dispute", "fence", "property", "boundary", "conflict"]

def environmentalKeywords : List String :=
  ["environment", "pollution", "air", "water", "waste", "dumping", "recycle"]

/-- `classify_issue` of main.py: lowercase the description, then walk the
chained keyword checks in source order, defaulting to
"infrastructure". -/
def classify_issue (description : String) : String :=
  let description_lower := strLower description
  if containsAnyWord description_lower parkingKeywords then "parking"
  else if containsAnyWord description_lower noiseKeywords then "noise"
  else if containsAnyWord description_lower permitsKeywords then "permits"
  else if containsAnyWord description_lower infrastructureKeywords then "infrastructure"
  else if containsAnyWord description_lower businessKeywords then "business"
  else if containsAnyWord description_lower religiousKeywords then "religious_events"
  else if containsAnyWord description_lower neighborKeywords then "neighbor_dispute"
  else if containsAnyWord description_lower environmentalKeywords then "environmental"
  else "infrastructure"

/-- The classifier's chained conditionals as an ordered
(category, keyword-set) table, in the source's order of checks. -/
def keywordTable : List (String × List String) :=
  [ ("parking", parkingKeywords),
    ("noise", noiseKeywords),
    ("permits", permitsKeywords),
    ("infrastructure", infrastructureKeywords),
    ("business", businessKeywords),
    ("religious_events", religiousKeywords),
    ("neighbor_dispute", neighborKeywords),
    ("environmental", environmentalKeywords) ]

/-- First-match evaluation of `keywordTable` with the "infrastructure"
fallback: the data-driven reading of the classifier, to be proved equal
to `classify_issue`. -/
def classifyTable (description : String) : String :=
  match keywordTable.find? (fun p => containsAnyWord (strLower description) p.2) with
  | some p => p.1
  | none => "infrastructure"

/-- A cached health entry (the dicts stored in `service_health_cache`):
the healthy/unhealthy probe outcome stores the response code, the
unreachable outcome stores the stringified exception. -/
structure HealthSnapshot where
  status : String
  response_code : Option Nat
  error : Option String
  last_check : String
  url : String
deriving DecidableEq

/-- The `{"status": "unknown"}` default that `analyze_civic_issue` uses
when a category has no cached snapshot. -/
def defaultSnapshot : HealthSnapshot :=
  { status := "unknown", response_code := none, error := none, last_check := "", url := "" }

/-- Opaque JSON value: the gateway treats backend bodies as opaque
`response.json()` results, never inspecting them. -/
inductive JsonValue where
  | null
  | bool (b : Bool)
  | num (n : Int)
  | str (s : String)
  | arr (elems : List JsonValue)
  | obj (fields : List (String × JsonValue))

/-- Outcome of one outbound HTTP call: either a response (status code
plus body parsed as opaque JSON) or a raised exception, stringified. -/
inductive NetOutcome where
  | response (code : Nat) (body : JsonValue)
  | raised (msg : String)

/-- `update_service_health_cache`'s per-service body: probe outcome to
cache entry.  A 200 response yields "healthy", any other response code
"unhealthy" (both record the code); an exception yields "unreachable"
with the exception's text recorded — the exception is caught inside the
loop, never rethrown.  `now` is the `datetime.utcnow()` reading. -/
def probeSnapshot (cfg : ServiceConfig) (outcome : NetOutcome) (now : String) :
    HealthSnapshot :=
  match outcome with
  | .response code _ =>
      { status := if code = 200 then "healthy" else "unhealthy",
        response_code := some code, error := none, last_check := now, url := cfg.url }
  | .raised msg =>
      { status := "unreachable", response_code := none, error := some msg,
        last_check := now, url := cfg.url }

/-- Python dict assignment `d[k] = v` on an association list: overwrite
in place if the key is present, else append. -/
def dictInsert (k : String) (v : HealthSnapshot) :
    List (String × HealthSnapshot) → List (String × HealthSnapshot)
  | [] => [(k, v)]
  | (k', v') :: rest =>
      if k' = k then (k, v) :: rest else (k', v') :: dictInsert k v rest

/-- `update_service_health_cache` of main.py: probe every registered
service's health endpoint and store the resulting snapshot, one entry
per service, regardless of each probe's outcome. -/
def update_service_health_cache (cache : List (String × HealthSnapshot))
    (net : String → NetOutcome) (now : String) : List (String × HealthSnapshot) :=
  CIVIC_SERVICES.foldl
    (fun acc p =>
      dictInsert p.1
        (probeSnapshot p.2 (net (p.2.url ++ p.2.health_endpoint)) now) acc)
    cache

/-- The inbound analyze payload: `request.get("description", "")`,
`request.get("location", "")`, plus the rest of the dict, opaque to the
gateway and forwarded untouched. -/
structure AnalyzeRequest where
  description : String
  location : String
  extra : List (String × JsonValue)

/-- `gateway_info` of the success response. -/
structure GatewayInfo where
  service : String
  version : String
  classification : String
  routed_to : String
  routing_time_ms : Nat
deriving DecidableEq

/-- The success body built by `analyze_civic_issue`. -/
structure GatewayResponse where
  gateway_info : GatewayInfo
  service_response : JsonValue
  total_processing_time_ms : Nat
  timestamp : String

/-- What the endpoint hands FastAPI: a 200 body, or an `HTTPException`
with status code and detail string. -/
inductive GatewayResult where
  | ok (body : GatewayResponse)
  | httpError (status : Nat) (detail : String)

/-- `service_health_cache.get(c, {"status": "unknown"}).get("status")`. -/
def cachedStatus (cache : List (String × HealthSnapshot)) (category : String) : String :=
  ((List.lookup category cache).getD defaultSnapshot).status

/-- `analyze_civic_issue` of main.py.  `net url request` is the outcome
of `client.post(url, json=request)` (the `.raised` case folds the
network exception and a `response.json()` parse failure into the outer
`except Exception` handler); `elapsedMs` stands for the rounded
`(time.time() - start_time_analysis) * 1000` reading and `timestamp`
for `datetime.utcnow()`.  Besides the result, the list of outbound POST
calls made (URL, body) is returned. -/
def analyze_civic_issue (request : AnalyzeRequest)
    (cache : List (String × HealthSnapshot))
    (net : String → AnalyzeRequest → NetOutcome)
    (elapsedMs : Nat) (timestamp : String) :
    GatewayResult × List (String × AnalyzeRequest) :=
  if request.description = "" then
    (.httpError 400 "Description is required", [])
  else if request.description.length < 10 then
    (.httpError 400 "Description too short (minimum 10 characters)", [])
  else
    let classified := classify_issue request.description
    match List.lookup classified CIVIC_SERVICES with
    | none => (.httpError 503 ("Service " ++ classified ++ " not available"), [])
    | some cfg =>
        let snap := (List.lookup classified cache).getD defaultSnapshot
        if snap.status ≠ "healthy" then
          (.httpError 503 ("Service " ++ classified ++ " is " ++ snap.status), [])
        else
          let service_url := cfg.url ++ cfg.analyze_endpoint
          match net service_url request with
          | .raised msg =>
              (.httpError 500 ("Gateway error: " ++ msg), [(service_url, request)])
          | .response code body =>
              if code ≠ 200 then
                (.httpError 502
                   ("Service " ++ classified ++ " returned error: " ++ toString code),
                 [(service_url, request)])
              else
                (.ok { gateway_info :=
                         { service := SERVICE_NAME, version := SERVICE_VERSION,
                           classification := classified, routed_to := cfg.name,
                           routing_time_ms := elapsedMs },
                       service_response := body,
                       total_processing_time_ms := elapsedMs,
                       timestamp := timestamp },
                 [(service_url, request)])

/-- One nested entry of the `/health` body's `checks` map. -/
structure CheckInfo where
  status : String
  details : String
deriving DecidableEq

/-- The `downstream_services` summary of the `/health` body. -/
structure DownstreamInfo where
  total : Nat
  healthy : Nat
  unhealthy : Nat
deriving DecidableEq

/-- The `/health` response body. -/
structure HealthResponse where
  service : String
  status : String
  version : String
  uptime_seconds : Nat
  downstream_services : DownstreamInfo
  checks_gateway : CheckInfo
  checks_service_registry : CheckInfo
  timestamp : String
deriving DecidableEq

/-- `health_check` of main.py (the `GET /health` endpoint): counts the
cached snapshots whose status is "healthy" and reports the gateway
status as "healthy" when that count is positive, "degraded"
otherwise. -/
def health_check (cache : List (String × HealthSnapshot))
    (uptime : Nat) (now : String) : HealthResponse :=
  let healthy_services :=
    (cache.filter (fun p => p.2.status = "healthy")).length
  let total_services := CIVIC_SERVICES.length
  { service := SERVICE_NAME,
    status := if healthy_services > 0 then "healthy" else "degraded",
    version := SERVICE_VERSION,
    uptime_seconds := uptime,
    downstream_services :=
      { total := total_services, healthy := healthy_services,
        unhealthy := total_services - healthy_services },
    checks_gateway := { status := "healthy", details := "API Gateway operational" },
    checks_service_registry :=
      { status := if total_services > 0 then "healthy" else "error",
        details := toString total_services ++ " services registered" },
    timestamp := now }

/-- Helper: the classifier only ever returns one of the eight literal
category names, each of which is a key of `CIVIC_SERVICES`. -/
theorem lookup_classify_isSome (d : String) :
    (List.lookup (classify_issue d) CIVIC_SERVICES).isSome = true := by
  simp only [classify_issue]
  split_ifs <;> decide

/-- Helper: looking up the key just written by `dictInsert` yields the
written value. -/
theorem lookup_dictInsert_self (k : String) (v : HealthSnapshot)
    (l : List (String × HealthSnapshot)) :
    List.lookup k (dictInsert k v l) = some v := by
  induction l with
  | nil => simp [dictInsert, List.lookup]
  | cons hd tl ih =>
      obtain ⟨k', v'⟩ := hd
      by_cases h : k' = k
      · subst h
        simp [dictInsert, List.lookup]
      · have hb : (k == k') = false := beq_eq_false_iff_ne.mpr (Ne.symm h)
        simp [dictInsert, if_neg h, List.lookup, hb, ih]

/-- Helper: `dictInsert` leaves every other key's binding unchanged. -/
theorem lookup_dictInsert_ne (k k' : String) (v : HealthSnapshot)
    (l : List (String × HealthSnapshot)) (h : k' ≠ k) :
    List.lookup k' (dictInsert k v l) = List.lookup k' l := by
  have hb : (k' == k) = false := beq_eq_false_iff_ne.mpr h
  induction l with
  | nil => simp [dictInsert, List.lookup, hb]
  | cons hd tl ih =>
      obtain ⟨k'', v''⟩ := hd
      by_cases hk : k'' = k
      · subst hk
        simp [dictInsert, List.lookup, hb]
      · simp only [dictInsert, if_neg hk]
        cases hbe : (k' == k'') <;> simp [List.lookup, hbe, ih]

/-- C6: the classifier walks its fixed (category, keyword-set) list in
priority order, returning the first category whose keyword set overlaps
the lowercased description (`classifyTable` is that one-pass reading,
with the "infrastructure" fallback when nothing matches); in
particular the three example descriptions classify to "parking",
"environmental" and the "infrastructure" fallback. -/
theorem classify_table_order_and_examples :
    (∀ d, classify_issue d = classifyTable d) ∧
    classify_issue "Neighbor's car is blocking my driveway again" = "parking" ∧
    classify_issue "Illegal dumping near the creek" = "environmental" ∧
    classify_issue "Something weird happened downtown" = "infrastructure" := by
  refine ⟨fun d => ?_, by decide, by decide, by decide⟩
  unfold classify_issue classifyTable keywordTable
  simp only [List.find?]
  split_ifs <;> simp_all

/-- C7: every category `classify_issue` can return is a key of the
static registry `CIVIC_SERVICES` (so the "Service not available" guard
in `analyze_civic_issue` on an unregistered classified category can
never fire), and the registry holds exactly one descriptor per key. -/
theorem classify_always_registered :
    (∀ d, (List.lookup (classify_issue d) CIVIC_SERVICES).isSome = true) ∧
    (CIVIC_SERVICES.map Prod.fst).Nodup := by
  exact ⟨lookup_classify_isSome, by decide⟩

/-- C10: whenever the lowercased description contains the substring
"permit", the classifier returns "parking" and never "permits",
because "permit" is in the parking keyword list and the parking check
runs first. -/
theorem permit_routes_to_parking (d : String)
    (h : wordIn "permit" (strLower d) = true) :
    classify_issue d = "parking" ∧ classify_issue d ≠ "permits" := by
  have hp : containsAnyWord (strLower d) parkingKeywords = true := by
    simp [containsAnyWord, parkingKeywords, h]
  constructor
  · simp [classify_issue, hp]
  · simp [classify_issue, hp]

/-- C10 witness: a concrete permit question classifies to "parking". -/
theorem permit_routes_to_parking_witness :
    wordIn "permit" (strLower "Do I need a permit to extend my porch") = true ∧
    (classify_issue "Do I need a permit to extend my porch" = "parking" ∧
     classify_issue "Do I need a permit to extend my porch" ≠ "permits") := by
  exact ⟨rfl, permit_routes_to_parking "Do I need a permit to extend my porch" rfl⟩

/-- C2 counterexample: a probe answered with HTTP 204 — a 2xx status —
is cached as "unhealthy", because the source compares the response code
to 200 exactly, not to the 2xx range. -/
theorem probe_204_yields_unhealthy :
    (200 ≤ 204 ∧ 204 < 300) ∧
    List.lookup "parking"
        (update_service_health_cache [] (fun _ => .response 204 .null) "t") =
      some { status := "unhealthy", response_code := some 204, error := none,
             last_check := "t", url := "http://localhost:9300" } := by
  exact ⟨by decide, rfl⟩

/-- C2 amended: a probe response is cached as "healthy" exactly when its
status code is 200 and as "unhealthy" otherwise (the code is recorded);
a raised exception is cached as "unreachable" with the exception text
in a non-null error field; and a refresh always stores a snapshot for
every registered backend regardless of its probe's outcome — failures
are recorded, never propagated. -/
theorem probe_semantics_and_refresh_total :
    (∀ cfg code body now,
        probeSnapshot cfg (.response code body) now =
          { status := if code = 200 then "healthy" else "unhealthy",
            response_code := some code, error := none, last_check := now,
            url := cfg.url }) ∧
    (∀ cfg msg now,
        (probeSnapshot cfg (.raised msg) now).status = "unreachable" ∧
        (probeSnapshot cfg (.raised msg) now).error = some msg) ∧
    (∀ cache net now name cfg,
        List.lookup name CIVIC_SERVICES = some cfg →
        List.lookup name (update_service_health_cache cache net now) =
          some (probeSnapshot cfg (net (cfg.url ++ cfg.health_endpoint)) now)) := by
  refine ⟨fun cfg code body now => rfl, fun cfg msg now => ⟨rfl, rfl⟩, ?_⟩
  intro cache net now name cfg hcfg
  simp only [CIVIC_SERVICES, List.lookup] at hcfg
  simp only [update_service_health_cache, CIVIC_SERVICES, List.foldl]
  repeat' split at hcfg
  all_goals simp_all [lookup_dictInsert_self, lookup_dictInsert_ne]
  all_goals (subst hcfg; rfl)

/-- C2 witness: refreshing with every probe raising "Connection
refused" still stores the noise service's snapshot. -/
theorem probe_semantics_and_refresh_total_witness :
    List.lookup "noise" CIVIC_SERVICES =
      some { url := "http://localhost:9302", name := "noise-service", version := "1.0.0",
             health_endpoint := "/health", analyze_endpoint := "/analyze" } ∧
    List.lookup "noise"
        (update_service_health_cache [] (fun _ => .raised "Connection refused") "t") =
      some (probeSnapshot
        { url := "http://localhost:9302", name := "noise-service", version := "1.0.0",
          health_endpoint := "/health", analyze_endpoint := "/analyze" }
        ((fun _ => NetOutcome.raised "Connection refused") ("http://localhost:9302" ++ "/health"))
        "t") := by
  exact ⟨rfl,
    probe_semantics_and_refresh_total.2.2 [] (fun _ => .raised "Connection refused")
      "t" "noise" _ rfl⟩

/-- C1: when the classified category's cached snapshot has any status
other than "healthy" (including the "unknown" default used when no
snapshot exists), a validated analyze request fails with HTTP 503
carrying the last known status, and no outbound call is made. -/
theorem analyze_fails_fast_when_not_healthy (req : AnalyzeRequest)
    (cache : List (String × HealthSnapshot))
    (net : String → AnalyzeRequest → NetOutcome) (ems : Nat) (ts : String)
    (hne : req.description ≠ "") (hlen : 10 ≤ req.description.length)
    (hstat : cachedStatus cache (classify_issue req.description) ≠ "healthy") :
    analyze_civic_issue req cache net ems ts =
      (.httpError 503
         ("Service " ++ classify_issue req.description ++ " is " ++
          cachedStatus cache (classify_issue req.description)), []) := by
  obtain ⟨cfg, hcfg⟩ := Option.isSome_iff_exists.mp (lookup_classify_isSome req.description)
  have hlen' : ¬ (req.description.length < 10) := by omega
  simp only [analyze_civic_issue, if_neg hne, if_neg hlen', hcfg]
  simp only [cachedStatus] at hstat
  simp [hstat, cachedStatus]

/-- C1 witness: with an empty cache a noise request gets 503 "Service
noise is unknown" and the outbound-call list stays empty. -/
theorem analyze_fails_fast_when_not_healthy_witness :
    cachedStatus [] (classify_issue "Loud music every night past 11pm from apartment 4B") ≠
      "healthy" ∧
    analyze_civic_issue
        ⟨"Loud music every night past 11pm from apartment 4B", "Elm St", []⟩ []
        (fun _ _ => .raised "unused") 7 "t" =
      (.httpError 503 "Service noise is unknown", []) := by
  refine ⟨by decide, ?_⟩
  exact analyze_fails_fast_when_not_healthy
    ⟨"Loud music every night past 11pm from apartment 4B", "Elm St", []⟩ []
    (fun _ _ => .raised "unused") 7 "t" (by decide) (by decide) (by decide)

/-- C5: on success the outbound POST body is the inbound request itself
(forwarded verbatim), and the 200 response nests the backend's body
unmodified under `service_response`, beside `gateway_info` holding the
gateway name, version, resolved classification, routed-to backend name
and routing time. -/
theorem analyze_success_forwards_verbatim (req : AnalyzeRequest)
    (cache : List (String × HealthSnapshot))
    (net : String → AnalyzeRequest → NetOutcome) (ems : Nat) (ts : String)
    (cfg : ServiceConfig) (body : JsonValue)
    (hne : req.description ≠ "") (hlen : 10 ≤ req.description.length)
    (hcfg : List.lookup (classify_issue req.description) CIVIC_SERVICES = some cfg)
    (hstat : cachedStatus cache (classify_issue req.description) = "healthy")
    (hnet : net (cfg.url ++ cfg.analyze_endpoint) req = .response 200 body) :
    analyze_civic_issue req cache net ems ts =
      (.ok { gateway_info := { service := SERVICE_NAME, version := SERVICE_VERSION,
                               classification := classify_issue req.description,
                               routed_to := cfg.name, routing_time_ms := ems },
             service_response := body,
             total_processing_time_ms := ems, timestamp := ts },
       [(cfg.url ++ cfg.analyze_endpoint, req)]) := by
  have hlen' : ¬ (req.description.length < 10) := by omega
  simp only [cachedStatus] at hstat
  simp only [analyze_civic_issue, if_neg hne, if_neg hlen', hcfg, hstat, hnet]
  simp

/-- C5 witness: a healthy noise backend echoing a body produces the
composed response, with the request forwarded verbatim. -/
theorem analyze_success_forwards_verbatim_witness :
    cachedStatus
        [("noise", { status := "healthy", response_code := some 200, error := none,
                     last_check := "t", url := "http://localhost:9302" })]
        (classify_issue "Loud music every night past 11pm from apartment 4B") = "healthy" ∧
    analyze_civic_issue
        ⟨"Loud music every night past 11pm from apartment 4B", "Elm St", []⟩
        [("noise", { status := "healthy", response_code := some 200, error := none,
                     last_check := "t", url := "http://localhost:9302" })]
        (fun _ _ => .response 200 (.obj [("echo", .str "ok")])) 7 "t" =
      (.ok { gateway_info := { service := "api-gateway", version := "1.0.0",
                               classification := "noise", routed_to := "noise-service",
                               routing_time_ms := 7 },
             service_response := .obj [("echo", .str "ok")],
             total_processing_time_ms := 7, timestamp := "t" },
       [("http://localhost:9302/analyze",
         ⟨"Loud music every night past 11pm from apartment 4B", "Elm St", []⟩)]) := by
  refine ⟨rfl, ?_⟩
  exact analyze_success_forwards_verbatim
    ⟨"Loud music every night past 11pm from apartment 4B", "Elm St", []⟩
    [("noise", { status := "healthy", response_code := some 200, error := none,
                 last_check := "t", url := "http://localhost:9302" })]
    (fun _ _ => .response 200 (.obj [("echo", .str "ok")])) 7 "t"
    { url := "http://localhost:9302", name := "noise-service", version := "1.0.0",
      health_endpoint := "/health", analyze_endpoint := "/analyze" }
    (.obj [("echo", .str "ok")]) (by decide) (by decide) rfl rfl rfl

/-- C4 counterexample: a backend response of HTTP 201 — a 2xx success —
is turned into a 502 BackendError, because the source compares the
backend's status to 200 exactly. -/
theorem analyze_201_maps_to_502 :
    (200 ≤ 201 ∧ 201 < 300) ∧
    analyze_civic_issue ⟨"My car is blocking the neighbor driveway", "", []⟩
        [("parking", { status := "healthy", response_code := some 200, error := none,
                       last_check := "t", url := "http://localhost:9300" })]
        (fun _ _ => .response 201 .null) 3 "t" =
      (.httpError 502 "Service parking returned error: 201",
       [("http://localhost:9300/analyze",
         ⟨"My car is blocking the neighbor driveway", "", []⟩)]) := by
  exact ⟨by decide, rfl⟩

/-- C4 amended: a backend analyze response with any status other than
exactly 200 makes the dispatch fail with HTTP 502 whose detail carries
the backend's status code; a 200 response makes it succeed. -/
theorem analyze_backend_status_non200_502 (req : AnalyzeRequest)
    (cache : List (String × HealthSnapshot))
    (net : String → AnalyzeRequest → NetOutcome) (ems : Nat) (ts : String)
    (cfg : ServiceConfig) (code : Nat) (body : JsonValue)
    (hne : req.description ≠ "") (hlen : 10 ≤ req.description.length)
    (hcfg : List.lookup (classify_issue req.description) CIVIC_SERVICES = some cfg)
    (hstat : cachedStatus cache (classify_issue req.description) = "healthy")
    (hnet : net (cfg.url ++ cfg.analyze_endpoint) req = .response code body) :
    (code ≠ 200 →
       analyze_civic_issue req cache net ems ts =
         (.httpError 502 ("Service " ++ classify_issue req.description ++
            " returned error: " ++ toString code),
          [(cfg.url ++ cfg.analyze_endpoint, req)])) ∧
    (code = 200 →
       analyze_civic_issue req cache net ems ts =
         (.ok { gateway_info := { service := SERVICE_NAME, version := SERVICE_VERSION,
                                  classification := classify_issue req.description,
                                  routed_to := cfg.name, routing_time_ms := ems },
                service_response := body,
                total_processing_time_ms := ems, timestamp := ts },
          [(cfg.url ++ cfg.analyze_endpoint, req)])) := by
  have hlen' : ¬ (req.description.length < 10) := by omega
  simp only [cachedStatus] at hstat
  constructor
  · intro hc
    simp only [analyze_civic_issue, if_neg hne, if_neg hlen', hcfg, hstat, hnet]
    simp [hc]
  · intro hc
    subst hc
    simp only [analyze_civic_issue, if_neg hne, if_neg hlen', hcfg, hstat, hnet]
    simp

/-- C4 witness: a 404 backend response becomes 502 with the code in the
detail. -/
theorem analyze_backend_status_non200_502_witness :
    (404 : Nat) ≠ 200 ∧
    analyze_civic_issue ⟨"My car is blocking the neighbor driveway", "", []⟩
        [("parking", { status := "healthy", response_code := some 200, error := none,
                       last_check := "t", url := "http://localhost:9300" })]
        (fun _ _ => .response 404 .null) 3 "t" =
      (.httpError 502 "Service parking returned error: 404",
       [("http://localhost:9300/analyze",
         ⟨"My car is blocking the neighbor driveway", "", []⟩)]) := by
  refine ⟨by decide, ?_⟩
  exact (analyze_backend_status_non200_502 ⟨"My car is blocking the neighbor driveway", "", []⟩
    [("parking", { status := "healthy", response_code := some 200, error := none,
                   last_check := "t", url := "http://localhost:9300" })]
    (fun _ _ => .response 404 .null) 3 "t"
    { url := "http://localhost:9300", name := "parking-service", version := "1.0.0",
      health_endpoint := "/health", analyze_endpoint := "/analyze" }
    404 .null (by decide) (by decide) rfl rfl rfl).1 (by decide)

/-- C9 counterexample: when the outbound call raises "division by
zero", the client-visible 500 detail is "Gateway error: division by
zero" — the exception's own text appears verbatim in the response. -/
theorem analyze_500_leaks_exception_text :
    analyze_civic_issue
        ⟨"Loud music every night past 11pm from apartment 4B", "Elm St", []⟩
        [("noise", { status := "healthy", response_code := some 200, error := none,
                     last_check := "t", url := "http://localhost:9302" })]
        (fun _ _ => .raised "division by zero") 7 "t" =
      (.httpError 500 "Gateway error: division by zero",
       [("http://localhost:9302/analyze",
         ⟨"Loud music every night past 11pm from apartment 4B", "Elm St", []⟩)]) ∧
    wordIn "division by zero" "Gateway error: division by zero" = true := by
  exact ⟨rfl, rfl⟩

/-- C9 amended: an unexpected exception during dispatch is mapped to
HTTP 500 whose detail is exactly "Gateway error: " followed by the
exception's message — the internal exception text is included verbatim
in the client response. -/
theorem analyze_500_detail_embeds_exception (req : AnalyzeRequest)
    (cache : List (String × HealthSnapshot))
    (net : String → AnalyzeRequest → NetOutcome) (ems : Nat) (ts : String)
    (cfg : ServiceConfig) (msg : String)
    (hne : req.description ≠ "") (hlen : 10 ≤ req.description.length)
    (hcfg : List.lookup (classify_issue req.description) CIVIC_SERVICES = some cfg)
    (hstat : cachedStatus cache (classify_issue req.description) = "healthy")
    (hnet : net (cfg.url ++ cfg.analyze_endpoint) req = .raised msg) :
    analyze_civic_issue req cache net ems ts =
      (.httpError 500 ("Gateway error: " ++ msg),
       [(cfg.url ++ cfg.analyze_endpoint, req)]) := by
  have hlen' : ¬ (req.description.length < 10) := by omega
  simp only [cachedStatus] at hstat
  simp only [analyze_civic_issue, if_neg hne, if_neg hlen', hcfg, hstat, hnet]
  simp

/-- C9 witness: a raised "boom" yields detail "Gateway error: boom". -/
theorem analyze_500_detail_embeds_exception_witness :
    cachedStatus
        [("noise", { status := "healthy", response_code := some 200, error := none,
                     last_check := "t", url := "http://localhost:9302" })]
        (classify_issue "Loud music every night past 11pm from apartment 4B") = "healthy" ∧
    analyze_civic_issue
        ⟨"Loud music every night past 11pm from apartment 4B", "Elm St", []⟩
        [("noise", { status := "healthy", response_code := some 200, error := none,
                     last_check := "t", url := "http://localhost:9302" })]
        (fun _ _ => .raised "boom") 7 "t" =
      (.httpError 500 "Gateway error: boom",
       [("http://localhost:9302/analyze",
         ⟨"Loud music every night past 11pm from apartment 4B", "Elm St", []⟩)]) := by
  refine ⟨rfl, ?_⟩
  exact analyze_500_detail_embeds_exception
    ⟨"Loud music every night past 11pm from apartment 4B", "Elm St", []⟩
    [("noise", { status := "healthy", response_code := some 200, error := none,
                 last_check := "t", url := "http://localhost:9302" })]
    (fun _ _ => .raised "boom") 7 "t"
    { url := "http://localhost:9302", name := "noise-service", version := "1.0.0",
      health_endpoint := "/health", analyze_endpoint := "/analyze" }
    "boom" (by decide) (by decide) rfl rfl rfl

/-- C3 counterexample: a description of ten spaces — whitespace only,
zero non-space characters — passes validation (its total length is 10),
is classified, and is dispatched to the infrastructure backend with a
200 result, instead of the claimed 400 with no classification or
dispatch. -/
theorem analyze_accepts_ten_spaces :
    ("          " : String).data.all (fun c => c == ' ') = true ∧
    ("          " : String).length = 10 ∧
    analyze_civic_issue ⟨"          ", "", []⟩
        [("infrastructure", { status := "healthy", response_code := some 200, error := none,
                              last_check := "t", url := "http://localhost:9303" })]
        (fun _ _ => .response 200 (.str "handled")) 4 "t" =
      (.ok { gateway_info := { service := "api-gateway", version := "1.0.0",
                               classification := "infrastructure",
                               routed_to := "infrastructure-service", routing_time_ms := 4 },
             service_response := .str "handled",
             total_processing_time_ms := 4, timestamp := "t" },
       [("http://localhost:9303/analyze", ⟨"          ", "", []⟩)]) := by
  exact ⟨rfl, rfl, rfl⟩

/-- C3 amended: an empty description gets HTTP 400 "Description is
required" and a non-empty description of total length below 10
(whitespace counted) gets HTTP 400 "Description too short (minimum 10
characters)", in both cases with no outbound call; validation checks
only the total character count, so whitespace-only descriptions of
length at least 10 are not rejected. -/
theorem analyze_validation_rejects_empty_or_short (req : AnalyzeRequest)
    (cache : List (String × HealthSnapshot))
    (net : String → AnalyzeRequest → NetOutcome) (ems : Nat) (ts : String) :
    (req.description = "" →
       analyze_civic_issue req cache net ems ts =
         (.httpError 400 "Description is required", [])) ∧
    (req.description ≠ "" → req.description.length < 10 →
       analyze_civic_issue req cache net ems ts =
         (.httpError 400 "Description too short (minimum 10 characters)", [])) := by
  constructor
  · intro h
    simp [analyze_civic_issue, h]
  · intro h hl
    simp [analyze_civic_issue, h, hl]

/-- C3 witness: "bad road" (8 characters) is rejected with 400 and no
outbound call. -/
theorem analyze_validation_rejects_empty_or_short_witness :
    ("bad road" : String) ≠ "" ∧ ("bad road" : String).length < 10 ∧
    analyze_civic_issue ⟨"bad road", "", []⟩ [] (fun _ _ => .raised "unused") 0 "t" =
      (.httpError 400 "Description too short (minimum 10 characters)", []) := by
  refine ⟨by decide, by decide, ?_⟩
  exact (analyze_validation_rejects_empty_or_short ⟨"bad road", "", []⟩ []
    (fun _ _ => .raised "unused") 0 "t").2 (by decide) (by decide)

/-- C8 counterexample: with no healthy cached backend the gateway's own
`/health` endpoint reports top-level status "degraded", not "healthy",
although the process is running. -/
theorem health_status_not_always_healthy :
    (health_check [] 0 "t").status = "degraded" ∧
    (health_check [] 0 "t").status ≠ "healthy" := by
  exact ⟨rfl, by decide⟩

/-- C8 amended: the `/health` top-level status is "healthy" exactly when
at least one cached snapshot is healthy and "degraded" otherwise — it
does depend on downstream backend health; only the nested
`checks.gateway` entry is unconditionally "healthy". -/
theorem health_status_degraded_iff_none_healthy
    (cache : List (String × HealthSnapshot)) (uptime : Nat) (now : String) :
    ((health_check cache uptime now).status = "healthy" ↔
       ∃ p ∈ cache, p.2.status = "healthy") ∧
    ((health_check cache uptime now).status = "healthy" ∨
       (health_check cache uptime now).status = "degraded") ∧
    (health_check cache uptime now).checks_gateway.status = "healthy" := by
  have key : 0 < (cache.filter (fun p => p.2.status = "healthy")).length ↔
      ∃ p ∈ cache, p.2.status = "healthy" := by
    rw [List.length_pos_iff_exists_mem]
    constructor
    · rintro ⟨a, ha⟩
      rw [List.mem_filter] at ha
      exact ⟨a, ha.1, by simpa using ha.2⟩
    · rintro ⟨p, hp, hs⟩
      exact ⟨p, List.mem_filter.mpr ⟨hp, by simpa using hs⟩⟩
  refine ⟨?_, ?_, rfl⟩
  · simp only [health_check]
    by_cases h : 0 < (cache.filter (fun p => p.2.status = "healthy")).length
    · simp [h, key.mp h]
    · have hnone : ¬ ∃ p ∈ cache, p.2.status = "healthy" := fun hx => h (key.mpr hx)
      simp [h, hnone]
  · simp only [health_check]
    by_cases h : 0 < (cache.filter (fun p => p.2.status = "healthy")).length
    · simp [h]
    · simp [h]
